import Mathlib

/-!
Verification of the price-optimizer service (src/main.py) against its
specification.  Monetary quantities are modelled as exact rationals; the
Python call round(x, 2) is modelled as rounding to two fractional digits
with ties going to the even hundredth (round-half-to-even), which agrees
with the Python behaviour at every concrete value used below (none of
them sits on a tie or within float noise of a rounding boundary).
-/

namespace PriceOpt

/-- Rounds a rational to the nearest integer, ties to even. -/
def rhe (x : ℚ) : ℤ :=
  if Int.fract x < 1 / 2 then ⌊x⌋
  else if 1 / 2 < Int.fract x then ⌊x⌋ + 1
  else if ⌊x⌋ % 2 = 0 then ⌊x⌋ else ⌊x⌋ + 1

/-- Model of the Python round(x, 2): round to two fractional digits. -/
def round2 (x : ℚ) : ℚ := (rhe (100 * x) : ℚ) / 100

/-- A stored baseline record, one entry of SKU_BASELINES.  The
competitor price is optional: the seed has it set, and upsert stores
whatever the payload carried, possibly null. -/
structure BaselineRecord where
  base_price : ℚ
  cost : ℚ
  inventory : ℕ
  competitor_price : Option ℚ
  seasonality : ℚ
deriving DecidableEq

/-- Well-formedness of a record: all numeric fields non-negative
(the inventory is a natural number, hence non-negative by type). -/
def WellFormed (r : BaselineRecord) : Prop :=
  0 ≤ r.base_price ∧ 0 ≤ r.cost ∧ 0 ≤ r.seasonality ∧
    0 ≤ r.competitor_price.getD 0

instance (r : BaselineRecord) : Decidable (WellFormed r) := by
  unfold WellFormed; infer_instance

/-- The rule dictionary.  The four keys of DEFAULT_RULES are always
present there; min_price and max_price are the optional extra keys the
code reads with rules.get("min_price", 0.0) and "max_price" in rules. -/
structure RuleConfig where
  min_margin_pct : ℚ
  max_above_competitor_pct : ℚ
  clearance_inventory : ℕ
  clearance_discount_pct : ℚ
  min_price : Option ℚ
  max_price : Option ℚ
deriving DecidableEq

/-- DEFAULT_RULES from src/main.py. -/
def DEFAULT_RULES : RuleConfig :=
  { min_margin_pct := 0.12
    max_above_competitor_pct := 0.15
    clearance_inventory := 1000
    clearance_discount_pct := 0.10
    min_price := none
    max_price := none }

/-- DummyModel.predict_price from src/main.py. -/
def predict_price (base_price competitor_price : ℚ) (inventory : ℕ) : ℚ :=
  let premium : ℚ := if competitor_price > base_price then 0.05 else -0.03
  let inv_disc : ℚ := if inventory > 500 then -0.05 else 0.0
  base_price * (1 + premium + inv_disc)

/-- apply_rules from src/main.py, transcribed step for step. -/
def apply_rules (predicted_price : ℚ) (base : BaselineRecord)
    (rules : RuleConfig) (competitor_price : Option ℚ) : ℚ :=
  let price := predicted_price
  -- Enforce minimum margin floor
  let min_margin := rules.min_margin_pct
  let min_price := max (base.cost * (1 + min_margin)) (rules.min_price.getD 0.0)
  let price := max price min_price
  -- Cap relative to competitor if provided
  let price := match competitor_price with
    | some cp => min price (cp * (1 + rules.max_above_competitor_pct))
    | none => price
  -- Clearance behavior if inventory high
  let price := if base.inventory > rules.clearance_inventory then
      min price (base.base_price * (1 - rules.clearance_discount_pct))
    else price
  -- Optional hard max cap
  let price := match rules.max_price with
    | some mp => min price mp
    | none => price
  round2 price

/-- The in-memory baseline store, a mapping from SKU to record. -/
def Store : Type := String → Option BaselineRecord

/-- The seeded record for SKU123 in src/main.py. -/
def seedRec : BaselineRecord :=
  { base_price := 100.0, cost := 70.0, inventory := 800
    competitor_price := some 110.0, seasonality := 1.0 }

/-- The initial SKU_BASELINES store, holding only the seed. -/
def seedStore : Store := fun s => if s = "SKU123" then some seedRec else none

/-- The empty store. -/
def emptyStore : Store := fun _ => none

/-- Failure modes a price request can surface: the explicit 404 raised
for a missing SKU, and the TypeError raised when the predictor compares
a null competitor price against a number. -/
inductive Err where
  | notFound
  | typeError
deriving DecidableEq

/-- The competitor-price resolution performed by both price handlers:
comp = competitor_price if competitor_price is not None else
base.get("competitor_price", base["base_price"]).  Every record that
can reach the store carries the competitor_price key (the seed sets it
and upsert stores the full payload dump, null included), so the dict
lookup returns the stored optional value and the base_price default of
the dict get is unreachable. -/
def resolve_comp (competitor_price : Option ℚ) (base : BaselineRecord) :
    Option ℚ :=
  match competitor_price with
  | some c => some c
  | none => base.competitor_price

/-- get_price from src/main.py.  A null resolved competitor price flows
into predict_price, whose comparison against base_price then fails. -/
def get_price (store : Store) (sku : String)
    (competitor_price : Option ℚ) : Except Err ℚ :=
  match store sku with
  | none => .error .notFound
  | some base =>
    match resolve_comp competitor_price base with
    | none => .error .typeError
    | some comp =>
      .ok (apply_rules (predict_price base.base_price comp base.inventory)
            base DEFAULT_RULES competitor_price)

/-- Body of a POST /price request. -/
structure PriceQuery where
  sku : String
  competitor_price : Option ℚ
deriving DecidableEq

/-- post_price from src/main.py, transcribed on its own. -/
def post_price (store : Store) (payload : PriceQuery) : Except Err ℚ :=
  match store payload.sku with
  | none => .error .notFound
  | some base =>
    match resolve_comp payload.competitor_price base with
    | none => .error .typeError
    | some comp =>
      .ok (apply_rules (predict_price base.base_price comp base.inventory)
            base DEFAULT_RULES payload.competitor_price)

/-- Body of a POST /baseline request (UpsertBaseline). -/
structure UpsertBaseline where
  sku : String
  base_price : ℚ
  cost : ℚ
  inventory : ℕ
  competitor_price : Option ℚ
  seasonality : ℚ
deriving DecidableEq

/-- The record stored by upsert_baseline: the full payload dump. -/
def UpsertBaseline.record (p : UpsertBaseline) : BaselineRecord :=
  { base_price := p.base_price, cost := p.cost, inventory := p.inventory
    competitor_price := p.competitor_price, seasonality := p.seasonality }

/-- upsert_baseline from src/main.py: wholesale replacement under the key. -/
def upsert_baseline (store : Store) (payload : UpsertBaseline) : Store :=
  fun s => if s = payload.sku then some payload.record else store s

/-- A request against the service, covering the three mutating or
price-relevant endpoints. -/
inductive Req where
  | priceGet (sku : String) (competitor_price : Option ℚ)
  | pricePost (payload : PriceQuery)
  | baselineUpsert (payload : UpsertBaseline)

/-- A response from the service. -/
inductive Resp where
  | priceOk (sku : String) (price : ℚ)
  | upsertOk (sku : String)
  | failure (e : Err)
deriving DecidableEq

/-- One request step of the service: the handler runs against the
current store and yields the next store together with the response.
Only the baseline upsert writes to SKU_BASELINES. -/
def handle : Req → Store → Store × Resp
  | .priceGet sku cp, store =>
    (store, match get_price store sku cp with
      | .ok p => .priceOk sku p
      | .error e => .failure e)
  | .pricePost payload, store =>
    (store, match post_price store payload with
      | .ok p => .priceOk payload.sku p
      | .error e => .failure e)
  | .baselineUpsert payload, store =>
    (upsert_baseline store payload, .upsertOk payload.sku)

/-! ## Spec-side definitions

These re-state, in the specification's own words, the formulas the
source is claimed to implement; the theorems below compare them with
the transcribed code. -/

/-- The predictor formula exactly as the specification words it:
premium +0.05 when the competitor price strictly exceeds the base
price and -0.03 otherwise, inventory adjustment -0.05 when inventory
strictly exceeds 500 and 0.0 otherwise. -/
def predict_spec (base_price competitor_price : ℚ) (inventory : ℕ) : ℚ :=
  base_price *
    (1 + (if competitor_price > base_price then 0.05 else -0.03)
       + (if inventory > 500 then -0.05 else 0.0))

/-- Rule step 1 from the spec: margin floor. -/
def margin_floor_step (base : BaselineRecord) (rules : RuleConfig)
    (price : ℚ) : ℚ :=
  max price (max (base.cost * (1 + rules.min_margin_pct)) (rules.min_price.getD 0.0))

/-- Rule step 2 from the spec: competitor ceiling, only when an
observed competitor price was supplied. -/
def competitor_ceiling_step (competitor_price : Option ℚ)
    (rules : RuleConfig) (price : ℚ) : ℚ :=
  match competitor_price with
  | some cp => min price (cp * (1 + rules.max_above_competitor_pct))
  | none => price

/-- Rule step 3 from the spec: clearance override, keyed on the
record's base price, when inventory strictly exceeds the threshold. -/
def clearance_step (base : BaselineRecord) (rules : RuleConfig)
    (price : ℚ) : ℚ :=
  if base.inventory > rules.clearance_inventory then
    min price (base.base_price * (1 - rules.clearance_discount_pct))
  else price

/-- Rule step 4 from the spec: hard cap, only when configured. -/
def hard_cap_step (rules : RuleConfig) (price : ℚ) : ℚ :=
  match rules.max_price with
  | some mp => min price mp
  | none => price

/-- Modelled from the spec: the competitor-price resolution the
orchestrator is specified to feed the predictor - the observed price
if provided, else the stored competitor price if present, else the
record's base price. -/
def resolve_comp_spec (competitor_price : Option ℚ)
    (base : BaselineRecord) : ℚ :=
  competitor_price.getD (base.competitor_price.getD base.base_price)

/-- Modelled from the spec: the decide_price pipeline of section 4.4,
with the spec's total competitor-price fallback chain. -/
def decide_price_spec (store : Store) (sku : String)
    (competitor_price : Option ℚ) : Except Err ℚ :=
  match store sku with
  | none => .error .notFound
  | some base =>
    .ok (apply_rules
          (predict_price base.base_price (resolve_comp_spec competitor_price base)
            base.inventory)
          base DEFAULT_RULES competitor_price)

/-! ## Concrete inputs used by witnesses and counterexamples -/

/-- A well-formed record whose competitor price observed at 10 drags
the final price far below the margin floor. -/
def lowCompRec : BaselineRecord := seedRec

/-- A clearance-eligible record with a round clearance price. -/
def clrRec : BaselineRecord :=
  { base_price := 100, cost := 90, inventory := 1100
    competitor_price := none, seasonality := 1 }

/-- A clearance-eligible record whose clearance price 90.018 rounds up
to 90.02. -/
def clrRoundRec : BaselineRecord :=
  { base_price := 100.02, cost := 90, inventory := 1100
    competitor_price := none, seasonality := 1 }

/-- An upsert payload carrying no competitor price, as POST /baseline
accepts. -/
def payloadA : UpsertBaseline :=
  { sku := "A", base_price := 100, cost := 70, inventory := 0
    competitor_price := none, seasonality := 1 }

/-- The store after upserting payloadA into the empty store. -/
def storeA : Store := upsert_baseline emptyStore payloadA

/-! ## Helper lemmas about the rounding function -/

theorem rhe_ge_floor (x : ℚ) : ⌊x⌋ ≤ rhe x := by
  unfold rhe; split_ifs <;> omega

theorem rhe_le_floor_add_one (x : ℚ) : rhe x ≤ ⌊x⌋ + 1 := by
  unfold rhe; split_ifs <;> omega

theorem rhe_mono {x y : ℚ} (h : x ≤ y) : rhe x ≤ rhe y := by
  have hf : ⌊x⌋ ≤ ⌊y⌋ := Int.floor_le_floor h
  rcases lt_or_eq_of_le hf with hlt | heq
  · calc rhe x ≤ ⌊x⌋ + 1 := rhe_le_floor_add_one x
      _ ≤ ⌊y⌋ := by omega
      _ ≤ rhe y := rhe_ge_floor y
  · have hfr : Int.fract x ≤ Int.fract y := by
      simp only [Int.fract, heq]
      exact sub_le_sub_right h _
    unfold rhe
    rw [heq]
    split_ifs <;> first | omega | linarith

theorem round2_mono {x y : ℚ} (h : x ≤ y) : round2 x ≤ round2 y := by
  unfold round2
  have h1 : rhe (100 * x) ≤ rhe (100 * y) := rhe_mono (by linarith)
  have h2 : ((rhe (100 * x) : ℚ)) ≤ ((rhe (100 * y) : ℚ)) := by exact_mod_cast h1
  linarith

/-- The transcribed rule engine is the rounded composition of the four
spec-side steps, applied first to last. -/
theorem apply_rules_eq_steps (p : ℚ) (base : BaselineRecord)
    (rules : RuleConfig) (cp : Option ℚ) :
    apply_rules p base rules cp =
      round2 (hard_cap_step rules (clearance_step base rules
        (competitor_ceiling_step cp rules (margin_floor_step base rules p)))) := rfl

theorem hard_cap_default (q : ℚ) : hard_cap_step DEFAULT_RULES q = q := rfl

theorem ceiling_none (rules : RuleConfig) (q : ℚ) :
    competitor_ceiling_step none rules q = q := rfl

/-! ## Claim theorems -/

/-- C1, counterexample: the margin floor does not survive the rule
engine unconditionally.  The seeded record is well formed, yet with an
observed competitor price of 10 the competitor ceiling, applied after
the floor, drives the final price to 11.5, far below the floor 78.4. -/
theorem margin_floor_cex :
    WellFormed seedRec ∧
    apply_rules 100 seedRec DEFAULT_RULES (some 10) <
      seedRec.cost * (1 + DEFAULT_RULES.min_margin_pct) := by
  constructor
  · norm_num [WellFormed, seedRec]
  · norm_num [apply_rules, seedRec, DEFAULT_RULES, round2, rhe, Int.fract]

/-- C1, amended: whenever no observed competitor price is supplied and
the record's inventory does not exceed the clearance threshold, the
final price under the default rules (which configure no hard cap) is
at least the margin floor rounded to two digits. -/
theorem margin_floor_amended (p : ℚ) (base : BaselineRecord)
    (h : base.inventory ≤ DEFAULT_RULES.clearance_inventory) :
    round2 (base.cost * (1 + DEFAULT_RULES.min_margin_pct)) ≤
      apply_rules p base DEFAULT_RULES none := by
  rw [apply_rules_eq_steps]
  apply round2_mono
  rw [hard_cap_default, ceiling_none]
  have h3 : clearance_step base DEFAULT_RULES (margin_floor_step base DEFAULT_RULES p)
      = margin_floor_step base DEFAULT_RULES p := by
    unfold clearance_step
    rw [if_neg (by omega)]
  rw [h3]
  exact le_trans (le_max_left _ _) (le_max_right _ _)

/-- C1, witness: the amended margin-floor bound instantiated at the
seeded record with predicted price 100. -/
theorem margin_floor_amended_w :
    round2 (seedRec.cost * (1 + DEFAULT_RULES.min_margin_pct)) ≤
      apply_rules 100 seedRec DEFAULT_RULES none :=
  margin_floor_amended 100 seedRec (by norm_num [seedRec, DEFAULT_RULES])

/-- C2: the rule engine is exactly the rounded composition of the four
spec-side constraint steps - margin floor, then competitor ceiling
(only with an observed price), then clearance override keyed on the
record's base price, then the hard cap (only when configured) - each
later step applied to, and hence able to override, the earlier ones. -/
theorem rule_engine_order (p : ℚ) (base : BaselineRecord)
    (rules : RuleConfig) (cp : Option ℚ) :
    apply_rules p base rules cp =
      round2 (hard_cap_step rules (clearance_step base rules
        (competitor_ceiling_step cp rules (margin_floor_step base rules p)))) := rfl

/-- C3: evaluation of the code at the divergence point.  After
upserting a record with no competitor price, a GET with no observed
competitor price makes the handler pass the stored null through to the
predictor, whose comparison then fails (a TypeError, an HTTP 500),
whereas the specified pipeline falls back to the base price and
returns the ordinary decision 97. -/
theorem comp_fallback_bug :
    get_price storeA "A" none = Except.error Err.typeError ∧
    decide_price_spec storeA "A" none = Except.ok 97 := by
  constructor
  · norm_num [get_price, storeA, upsert_baseline, emptyStore, payloadA,
      UpsertBaseline.record, resolve_comp]
  · norm_num [decide_price_spec, storeA, upsert_baseline, emptyStore, payloadA,
      UpsertBaseline.record, resolve_comp_spec, predict_price, apply_rules,
      DEFAULT_RULES, round2, rhe, Int.fract]

/-- C4: the predictor computes the spec formula
base_price (1 + premium + inventory_adjustment) with premium +0.05
exactly when the competitor price strictly exceeds the base price and
-0.03 otherwise, and adjustment -0.05 exactly when inventory strictly
exceeds 500 and 0.0 otherwise. -/
theorem predictor_formula (b c : ℚ) (i : ℕ) :
    predict_price b c i = predict_spec b c i := rfl

/-- C5, counterexample: the final price is not bounded by the
clearance price itself.  At base price 100.02 the clearance price is
90.018, which is below the margin floor 100.8, yet the rounded result
is 90.02, strictly above the clearance price. -/
theorem clearance_cex :
    DEFAULT_RULES.clearance_inventory < clrRoundRec.inventory ∧
    clrRoundRec.base_price * (1 - DEFAULT_RULES.clearance_discount_pct) <
      clrRoundRec.cost * (1 + DEFAULT_RULES.min_margin_pct) ∧
    clrRoundRec.base_price * (1 - DEFAULT_RULES.clearance_discount_pct) <
      apply_rules 200 clrRoundRec DEFAULT_RULES none := by
  refine ⟨by norm_num [clrRoundRec, DEFAULT_RULES], ?_, ?_⟩
  · norm_num [clrRoundRec, DEFAULT_RULES]
  · norm_num [apply_rules, clrRoundRec, DEFAULT_RULES, round2, rhe, Int.fract]

/-- C5, amended: when inventory strictly exceeds the clearance
threshold, the final price under the default rules is at most the
two-digit rounding of the clearance price, for every predicted price
and every optional observed competitor price; in particular, when that
rounded clearance price lies below the margin floor, the final price
falls strictly below the floor. -/
theorem clearance_dominates (p : ℚ) (base : BaselineRecord) (cp : Option ℚ)
    (h : DEFAULT_RULES.clearance_inventory < base.inventory) :
    apply_rules p base DEFAULT_RULES cp ≤
      round2 (base.base_price * (1 - DEFAULT_RULES.clearance_discount_pct)) ∧
    (round2 (base.base_price * (1 - DEFAULT_RULES.clearance_discount_pct)) <
        base.cost * (1 + DEFAULT_RULES.min_margin_pct) →
      apply_rules p base DEFAULT_RULES cp <
        base.cost * (1 + DEFAULT_RULES.min_margin_pct)) := by
  have hle : apply_rules p base DEFAULT_RULES cp ≤
      round2 (base.base_price * (1 - DEFAULT_RULES.clearance_discount_pct)) := by
    rw [apply_rules_eq_steps, hard_cap_default]
    apply round2_mono
    unfold clearance_step
    rw [if_pos h]
    exact min_le_right _ _
  exact ⟨hle, fun hlt => lt_of_le_of_lt hle hlt⟩

/-- C5, witness: at the clearance record with predicted price 200 and
no observed competitor price, the final price sits at most at the
rounded clearance price 90 and strictly below the floor 100.8. -/
theorem clearance_dominates_w :
    apply_rules 200 clrRec DEFAULT_RULES none ≤
      round2 (clrRec.base_price * (1 - DEFAULT_RULES.clearance_discount_pct)) ∧
    apply_rules 200 clrRec DEFAULT_RULES none <
      clrRec.cost * (1 + DEFAULT_RULES.min_margin_pct) :=
  ⟨(clearance_dominates 200 clrRec none (by norm_num [clrRec, DEFAULT_RULES])).1,
   (clearance_dominates 200 clrRec none (by norm_num [clrRec, DEFAULT_RULES])).2
     (by norm_num [clrRec, DEFAULT_RULES, round2, rhe, Int.fract])⟩

/-- C6: on the seeded record, the pipeline predicts 100 and returns
100.00 with no observed competitor price, and predicts 92 and returns
92.00 with an observed competitor price of 90. -/
theorem seeded_examples :
    predict_price seedRec.base_price 110 seedRec.inventory = 100 ∧
    get_price seedStore "SKU123" none = Except.ok 100 ∧
    predict_price seedRec.base_price 90 seedRec.inventory = 92 ∧
    get_price seedStore "SKU123" (some 90) = Except.ok 92 := by
  refine ⟨?_, ?_, ?_, ?_⟩ <;>
    norm_num [get_price, seedStore, seedRec, resolve_comp, predict_price,
      apply_rules, DEFAULT_RULES, round2, rhe, Int.fract]

/-- C7: a price request for an identifier with no stored record fails
with the not-found error and never yields a price, while a request for
a stored identifier never fails with the not-found error. -/
theorem not_found_cases (store : Store) (sku : String) (cp : Option ℚ) :
    (store sku = none → get_price store sku cp = Except.error Err.notFound) ∧
    (∀ base, store sku = some base →
      get_price store sku cp ≠ Except.error Err.notFound) := by
  constructor
  · intro h
    unfold get_price
    rw [h]
  · intro base h
    unfold get_price
    rw [h]
    rcases hr : resolve_comp cp base with _ | c <;> simp [hr]

/-- C7, witness: the unseeded identifier SKU999 is rejected as not
found on the empty store, and the seeded identifier SKU123 is not. -/
theorem not_found_cases_w :
    get_price emptyStore "SKU999" none = Except.error Err.notFound ∧
    get_price seedStore "SKU123" none ≠ Except.error Err.notFound :=
  ⟨(not_found_cases emptyStore "SKU999" none).1 rfl,
   (not_found_cases seedStore "SKU123" none).2 seedRec (by simp [seedStore])⟩

/-- C8: upserting the same payload twice leaves the store exactly as
one upsert does, so every later price decision coincides. -/
theorem upsert_idempotent (store : Store) (p : UpsertBaseline) :
    upsert_baseline (upsert_baseline store p) p = upsert_baseline store p ∧
    ∀ sku cp, get_price (upsert_baseline (upsert_baseline store p) p) sku cp =
      get_price (upsert_baseline store p) sku cp := by
  have h : upsert_baseline (upsert_baseline store p) p = upsert_baseline store p := by
    funext s
    unfold upsert_baseline
    by_cases hs : s = p.sku <;> simp [hs]
  exact ⟨h, fun sku cp => by rw [h]⟩

/-- C9: the GET and POST price handlers agree on every store, SKU and
optional observed competitor price. -/
theorem get_post_equiv (store : Store) (sku : String) (cp : Option ℚ) :
    post_price store { sku := sku, competitor_price := cp } =
      get_price store sku cp := rfl

/-- C10: price requests, GET and POST alike, leave the baseline store
untouched; only the upsert endpoint writes to it. -/
theorem price_requests_pure (store : Store) (sku : String) (cp : Option ℚ)
    (payload : PriceQuery) :
    (handle (Req.priceGet sku cp) store).1 = store ∧
    (handle (Req.pricePost payload) store).1 = store :=
  ⟨rfl, rfl⟩

end PriceOpt
